import Mathlib

/-!
# Verification of the TunableLaser device-state supervisor (`lsst/ts/laser/csc.py`)

Shallow embedding of the CSC layer: `LaserCSC` (the State Supervisor /
Command Gateway), `LaserModel` (the Operational Model façade) and the
middleware boundary they rely on.  Hardware interaction is recorded as a
trace of commands reaching the Device Aggregate, so that statements of the
form "exactly one hardware call" and "no hardware call" are provable.

Commands are embedded as functions `LaserCSC → Option Err × LaserCSC`:
the first component is `some e` when the Python method raises `e`, and the
second component is the supervisor state at that moment, so a raise in the
middle of a method keeps the side effects that preceded it, exactly as in
Python.

The Device Aggregate itself (`lsst.ts.laser.component.LaserComponent`) is
not among the supervisor sources; its operations are modelled from the
specification at the granularity the supervisor uses them.  The same holds
for the two middleware services the supervisor calls
(`salobj.BaseCsc.assert_enabled` and `salobj.BaseCsc.fault`) and for the
event-topic default read by the `detailed_state` getter, which is kept as
an unconstrained construction-time constant `dsDefault`.
-/

namespace Laser

/-- The lifecycle (summary) states of the external middleware state machine
(`salobj.State`): Offline, Standby, Disabled, Enabled, Fault. -/
inductive SummaryState where
  | OFFLINE
  | STANDBY
  | DISABLED
  | ENABLED
  | FAULT
  deriving DecidableEq, Repr

/-- Rendering of a lifecycle state inside error messages, as the Python
f-string interpolation of a `salobj.State` member renders it. -/
def SummaryState.name : SummaryState → String
  | .OFFLINE => "State.OFFLINE"
  | .STANDBY => "State.STANDBY"
  | .DISABLED => "State.DISABLED"
  | .ENABLED => "State.ENABLED"
  | .FAULT => "State.FAULT"

/-- Enumeration `LaserDetailedStateEnum` from `csc.py`: the TunableLaser's
detailed (sub-)states. -/
inductive LaserDetailedStateEnum where
  | DISABLEDSTATE
  | ENABLEDSTATE
  | FAULTSTATE
  | OFFLINESTATE
  | STANDBYSTATE
  | PROPAGATINGSTATE
  deriving DecidableEq, Repr

/-- The explicit numeric values the source assigns to the members of
`LaserDetailedStateEnum` (1 through 6); event topics carry these values. -/
def LaserDetailedStateEnum.value : LaserDetailedStateEnum → Nat
  | .DISABLEDSTATE => 1
  | .ENABLEDSTATE => 2
  | .FAULTSTATE => 3
  | .OFFLINESTATE => 4
  | .STANDBYSTATE => 5
  | .PROPAGATINGSTATE => 6

/-- One command reaching the Device Aggregate's module drivers, tagged with
the module it is addressed to.  `m_CPU800_setPropagate` is the power-stage
propagation ON/OFF command, `maxiOPG_setWavelength` the oscillator
set-wavelength command, `publishRefresh` the full re-query of all drivers
performed by `LaserComponent._publish`. -/
inductive HwCall where
  | m_CPU800_setPropagate (arg : String)
  | maxiOPG_setWavelength (wavelength : ℚ)
  | publishRefresh
  deriving DecidableEq, Repr

/-- Modelled from the spec: `LaserComponent` (the Device Aggregate, in
`lsst.ts.laser.component`, outside the supervisor sources).  Per the spec it
owns one driver per module and forwards `set_wavelength` to the oscillator
driver and propagation ON/OFF to the power-stage driver, one command per
call; those forwarded commands are recorded as a trace (most recent
first). -/
structure LaserComponent where
  port : String
  calls : List HwCall
  deriving DecidableEq, Repr

/-- Modelled from the spec: `LaserComponent(port)` construction — no
hardware command has been issued yet. -/
def LaserComponent.init (port : String) : LaserComponent :=
  { port := port, calls := [] }

/-- Modelled from the spec: `component.M_CPU800.set_propagate(arg)` forwards
one propagation command to the power-stage driver. -/
def LaserComponent.m_CPU800_set_propagate (c : LaserComponent) (arg : String) :
    LaserComponent :=
  { c with calls := HwCall.m_CPU800_setPropagate arg :: c.calls }

/-- Modelled from the spec: `component.MaxiOPG.set_wavelength(w)` forwards
one set-wavelength command to the oscillator driver. -/
def LaserComponent.maxiOPG_set_wavelength (c : LaserComponent) (w : ℚ) :
    LaserComponent :=
  { c with calls := HwCall.maxiOPG_setWavelength w :: c.calls }

/-- Modelled from the spec: `component._publish()` re-queries every module
driver (one full refresh pass). -/
def LaserComponent._publish (c : LaserComponent) : LaserComponent :=
  { c with calls := HwCall.publishRefresh :: c.calls }

/-- Structure `LaserModel` from `csc.py`: the Operational Model façade.
Its `__init__` assigns exactly one instance attribute, `_laser`;
`extraAttrs` records any further instance attributes an operation might
assign (the Python instance dictionary beyond `_laser`), so that absence of
a `fault_code` attribute is a provable invariant rather than a modelling
assumption. -/
structure LaserModel where
  _laser : LaserComponent
  extraAttrs : List (String × String)
  deriving DecidableEq, Repr

/-- Constructor `LaserModel.__init__(port)`: sets
`self._laser = LaserComponent(port)` and nothing else. -/
def LaserModel.init (port : String) : LaserModel :=
  { _laser := LaserComponent.init port, extraAttrs := [] }

/-- Method `LaserModel.change_wavelength`: delegates to
`self._laser.MaxiOPG.set_wavelength(wavelength)`. -/
def LaserModel.change_wavelength (m : LaserModel) (wavelength : ℚ) : LaserModel :=
  { m with _laser := m._laser.maxiOPG_set_wavelength wavelength }

/-- Method `LaserModel.run`: delegates to
`self._laser.M_CPU800.set_propagate("ON")`. -/
def LaserModel.run (m : LaserModel) : LaserModel :=
  { m with _laser := m._laser.m_CPU800_set_propagate "ON" }

/-- Method `LaserModel.stop`: delegates to
`self._laser.M_CPU800.set_propagate("OFF")`. -/
def LaserModel.stop (m : LaserModel) : LaserModel :=
  { m with _laser := m._laser.m_CPU800_set_propagate "OFF" }

/-- Method `LaserModel.publish`: delegates to `self._laser._publish()`. -/
def LaserModel.publish (m : LaserModel) : LaserModel :=
  { m with _laser := m._laser._publish }

/-- Python attribute lookup on a `LaserModel` instance for an attribute
other than `_laser` and the methods: succeeds only if some operation
assigned it to the instance dictionary. -/
def LaserModel.getattrExtra (m : LaserModel) (attr : String) : Option String :=
  (m.extraAttrs.find? (fun p => p.1 = attr)).map Prod.snd

/-- The operations of `LaserModel` (everything its interface offers after
construction); used to quantify over all model states reachable from
`LaserModel.__init__`. -/
inductive ModelOp where
  | change_wavelength (w : ℚ)
  | run
  | stop
  | publish
  deriving DecidableEq, Repr

/-- Application of one `LaserModel` operation. -/
def LaserModel.applyOp (m : LaserModel) : ModelOp → LaserModel
  | .change_wavelength w => m.change_wavelength w
  | .run => m.run
  | .stop => m.stop
  | .publish => m.publish

/-- Application of a sequence of `LaserModel` operations, oldest first. -/
def LaserModel.applyOps (m : LaserModel) (ops : List ModelOp) : LaserModel :=
  ops.foldl LaserModel.applyOp m

/-- Errors raised by the supervisor's command handlers:
`salobj.ExpectedError` with its message. -/
inductive CmdError where
  | expectedError (msg : String)
  deriving DecidableEq, Repr

/-- Assembly of the rejection message both assertion helpers raise: the
Python f-string interpolates the command name and the state value that was
read. -/
def notAllowedMsg (action : String) (st : String) : String :=
  action ++ " not allowed in state " ++ st

/-- Errors aborting a telemetry iteration: the Python `AttributeError`
raised by a failed attribute lookup. -/
inductive TickError where
  | attributeError (msg : String)
  deriving DecidableEq, Repr

/-- The supervisor state of `LaserCSC`: its instance attributes (`model`,
`frequency`, `summary_state`), the construction-time default of the
`detailedState` field of a freshly built `evt_detailedState` topic
(`dsDefault`, a middleware constant the sources never pin down), and the
trace of published `detailedState` events, most recent first. -/
structure LaserCSC where
  model : LaserModel
  frequency : ℚ
  summaryState : SummaryState
  dsDefault : Nat
  evtDetailedState : List Nat
  deriving DecidableEq, Repr

/-- Constructor `LaserCSC.__init__(address, frequency, initial_state)`:
builds the model on the given port, stores the frequency and initial
summary state; no event has been published yet. -/
def LaserCSC.init (address : String) (frequency : ℚ)
    (initial_state : SummaryState) (dsDefault : Nat) : LaserCSC :=
  { model := LaserModel.init address
    frequency := frequency
    summaryState := initial_state
    dsDefault := dsDefault
    evtDetailedState := [] }

/-- Property getter `LaserCSC.detailed_state` (lines 190–193): builds a
fresh `evt_detailedState` topic and returns its `detailedState` field —
hence always the construction default, never a previously assigned
value. -/
def LaserCSC.detailed_state (s : LaserCSC) : Nat := s.dsDefault

/-- Property setter `LaserCSC.detailed_state` (lines 195–199): builds a
fresh topic, writes the new sub-state into it and publishes it; nothing is
stored on the supervisor. -/
def LaserCSC.set_detailed_state (s : LaserCSC)
    (new_sub_state : LaserDetailedStateEnum) : LaserCSC :=
  { s with evtDetailedState := new_sub_state.value :: s.evtDetailedState }

/-- Modelled from the spec: `salobj.BaseCsc.assert_enabled(action)`
(middleware): raises an `ExpectedError` naming the command and the current
lifecycle state unless the summary state is ENABLED. -/
def LaserCSC.assert_enabled (s : LaserCSC) (action : String) : Option CmdError :=
  if s.summaryState = SummaryState.ENABLED then none
  else some (CmdError.expectedError (notAllowedMsg action s.summaryState.name))

/-- Python equality between the integer `detailedState` field read from a
freshly constructed middleware topic and a member of the plain `enum.Enum`
`LaserDetailedStateEnum`: a plain Enum member compares equal only to
itself, never to an integer, so this comparison is false for every field
value and every member. -/
def pyIntEqEnum (_fieldVal : Nat) (_member : LaserDetailedStateEnum) : Bool :=
  false

/-- Method `LaserCSC.assert_propagating(action)` (lines 77–90): raises
unless the `detailed_state` read equals the plain Enum member
`LaserDetailedStateEnum.PROPAGATINGSTATE`.  The read is the integer field
of a fresh topic and the member is a plain `enum.Enum` value, so the
comparison never succeeds and the assertion raises on every call; the
message interpolates the command name and the value just read. -/
def LaserCSC.assert_propagating (s : LaserCSC) (action : String) : Option CmdError :=
  if ! pyIntEqEnum s.detailed_state LaserDetailedStateEnum.PROPAGATINGSTATE then
    some (CmdError.expectedError (notAllowedMsg action (toString s.detailed_state)))
  else none

/-- Command handler `do_changeWavelength` (lines 92–104): `assert_enabled`,
then delegate `model.change_wavelength`. -/
def LaserCSC.do_changeWavelength (s : LaserCSC) (wavelength : ℚ) :
    Option CmdError × LaserCSC :=
  match s.assert_enabled "changeWavelength" with
  | some e => (some e, s)
  | none => (none, { s with model := s.model.change_wavelength wavelength })

/-- Command handler `do_startPropagateLaser` (lines 106–119):
`assert_enabled`, then `model.run()`, then assign
`detailed_state = PROPAGATINGSTATE` (which publishes the event). -/
def LaserCSC.do_startPropagateLaser (s : LaserCSC) : Option CmdError × LaserCSC :=
  match s.assert_enabled "startPropagateLaser" with
  | some e => (some e, s)
  | none =>
      (none, ({ s with model := s.model.run }).set_detailed_state
        LaserDetailedStateEnum.PROPAGATINGSTATE)

/-- Command handler `do_stopPropagateLaser` (lines 121–135):
`assert_enabled`, then `assert_propagating`, then `model.stop()`, then
assign `detailed_state = ENABLEDSTATE`. -/
def LaserCSC.do_stopPropagateLaser (s : LaserCSC) : Option CmdError × LaserCSC :=
  match s.assert_enabled "stopPropagateLaser" with
  | some e => (some e, s)
  | none =>
      match s.assert_propagating "stopPropagateLaser" with
      | some e => (some e, s)
      | none =>
          (none, ({ s with model := s.model.stop }).set_detailed_state
            LaserDetailedStateEnum.ENABLEDSTATE)

/-- Command handler `do_abort` (lines 137–148): `pass`. -/
def LaserCSC.do_abort (s : LaserCSC) : Option CmdError × LaserCSC := (none, s)

/-- Command handler `do_clearFaultState` (lines 150–161): unconditionally
delegates `model.stop()`; there is no precondition check of any kind. -/
def LaserCSC.do_clearFaultState (s : LaserCSC) : Option CmdError × LaserCSC :=
  (none, { s with model := s.model.stop })

/-- Command handler `do_setValue` (lines 164–175): `pass`. -/
def LaserCSC.do_setValue (s : LaserCSC) : Option CmdError × LaserCSC := (none, s)

/-- Modelled from the spec: `salobj.BaseCsc.fault()` (middleware): forces
the lifecycle summary state to FAULT.  It publishes no `detailedState`
event. -/
def LaserCSC.fault (s : LaserCSC) : LaserCSC :=
  { s with summaryState := SummaryState.FAULT }

/-- One iteration of the `telemetry` loop body through the fault check
(lines 68–70): `model.publish()` refreshes the drivers, then
`self.model.fault_code` is looked up on the model instance — an
`AttributeError` aborts the iteration here — and compared against the
single hard-coded critical code `"0002H"`; on equality `self.fault()` is
invoked.  The remaining statements of the body (lines 71–74, filling and
putting the wavelength/temperature telemetry topics) are downstream of
this check and are not modelled: no claim concerns them. -/
def LaserCSC.telemetry_tick (s : LaserCSC) : Option TickError × LaserCSC :=
  let s1 : LaserCSC := { s with model := s.model.publish }
  match s1.model.getattrExtra "fault_code" with
  | none =>
      (some (TickError.attributeError
        "LaserModel object has no attribute fault_code"), s1)
  | some fault_code =>
      (none, if fault_code = "0002H" then s1.fault else s1)

/-- The supervisor-level operations (command handlers, the event setter and
one telemetry iteration); used to quantify over all supervisor states
reachable by any interleaving of commands and telemetry ticks. -/
inductive CscOp where
  | changeWavelength (w : ℚ)
  | startPropagateLaser
  | stopPropagateLaser
  | abort
  | clearFaultState
  | setValue
  | setDetailedState (v : LaserDetailedStateEnum)
  | tick
  deriving DecidableEq, Repr

/-- The post-state of one supervisor-level operation (for handlers that can
raise, the state after the call whether or not it raised). -/
def LaserCSC.applyOp (s : LaserCSC) : CscOp → LaserCSC
  | .changeWavelength w => (s.do_changeWavelength w).2
  | .startPropagateLaser => s.do_startPropagateLaser.2
  | .stopPropagateLaser => s.do_stopPropagateLaser.2
  | .abort => s.do_abort.2
  | .clearFaultState => s.do_clearFaultState.2
  | .setValue => s.do_setValue.2
  | .setDetailedState v => s.set_detailed_state v
  | .tick => s.telemetry_tick.2

/-- The post-state of a sequence of supervisor-level operations, oldest
first. -/
def LaserCSC.applyOps (s : LaserCSC) (ops : List CscOp) : LaserCSC :=
  ops.foldl LaserCSC.applyOp s

/-! ## Basic lemmas about the embedded operations -/

lemma assert_enabled_of_enabled (s : LaserCSC) (a : String)
    (h : s.summaryState = SummaryState.ENABLED) : s.assert_enabled a = none := by
  simp [LaserCSC.assert_enabled, h]

lemma assert_enabled_of_not_enabled (s : LaserCSC) (a : String)
    (h : s.summaryState ≠ SummaryState.ENABLED) :
    s.assert_enabled a
      = some (CmdError.expectedError (notAllowedMsg a s.summaryState.name)) := by
  simp [LaserCSC.assert_enabled, h]

lemma assert_propagating_raises (s : LaserCSC) (a : String) :
    s.assert_propagating a
      = some (CmdError.expectedError (notAllowedMsg a (toString s.detailed_state))) :=
  rfl

lemma do_stopPropagateLaser_rejects (s : LaserCSC) :
    ∃ msg, s.do_stopPropagateLaser.1 = some (CmdError.expectedError msg) := by
  by_cases he : s.summaryState = SummaryState.ENABLED
  · refine ⟨notAllowedMsg "stopPropagateLaser" (toString s.detailed_state), ?_⟩
    have h1 := assert_enabled_of_enabled s "stopPropagateLaser" he
    have h2 := assert_propagating_raises s "stopPropagateLaser"
    unfold LaserCSC.do_stopPropagateLaser
    rw [h1, h2]
  · refine ⟨notAllowedMsg "stopPropagateLaser" s.summaryState.name, ?_⟩
    have h1 := assert_enabled_of_not_enabled s "stopPropagateLaser" he
    unfold LaserCSC.do_stopPropagateLaser
    rw [h1]

lemma do_stopPropagateLaser_state_unchanged (s : LaserCSC) :
    s.do_stopPropagateLaser.2 = s := by
  by_cases he : s.summaryState = SummaryState.ENABLED
  · have h1 := assert_enabled_of_enabled s "stopPropagateLaser" he
    have h2 := assert_propagating_raises s "stopPropagateLaser"
    unfold LaserCSC.do_stopPropagateLaser
    rw [h1, h2]
  · have h1 := assert_enabled_of_not_enabled s "stopPropagateLaser" he
    unfold LaserCSC.do_stopPropagateLaser
    rw [h1]

lemma model_applyOp_extraAttrs (m : LaserModel) (o : ModelOp) :
    (m.applyOp o).extraAttrs = m.extraAttrs := by
  cases o <;> rfl

lemma model_applyOps_extraAttrs (m : LaserModel) (ops : List ModelOp) :
    (m.applyOps ops).extraAttrs = m.extraAttrs := by
  induction ops generalizing m with
  | nil => rfl
  | cons o rest ih =>
      show ((m.applyOp o).applyOps rest).extraAttrs = m.extraAttrs
      rw [ih (m.applyOp o), model_applyOp_extraAttrs]

lemma getattrExtra_of_no_extra (m : LaserModel) (a : String)
    (h : m.extraAttrs = []) : m.getattrExtra a = none := by
  simp [LaserModel.getattrExtra, h]

lemma csc_applyOp_dsDefault (s : LaserCSC) (o : CscOp) :
    (s.applyOp o).dsDefault = s.dsDefault := by
  cases o with
  | changeWavelength w =>
      show (s.do_changeWavelength w).2.dsDefault = s.dsDefault
      unfold LaserCSC.do_changeWavelength
      split <;> rfl
  | startPropagateLaser =>
      show s.do_startPropagateLaser.2.dsDefault = s.dsDefault
      unfold LaserCSC.do_startPropagateLaser
      split <;> rfl
  | stopPropagateLaser =>
      show s.do_stopPropagateLaser.2.dsDefault = s.dsDefault
      unfold LaserCSC.do_stopPropagateLaser
      split
      · rfl
      · split <;> rfl
  | abort => rfl
  | clearFaultState => rfl
  | setValue => rfl
  | setDetailedState v => rfl
  | tick =>
      show s.telemetry_tick.2.dsDefault = s.dsDefault
      unfold LaserCSC.telemetry_tick
      dsimp only
      split
      · rfl
      · split <;> rfl

lemma csc_applyOps_dsDefault (s : LaserCSC) (ops : List CscOp) :
    (s.applyOps ops).dsDefault = s.dsDefault := by
  induction ops generalizing s with
  | nil => rfl
  | cons o rest ih =>
      show ((s.applyOp o).applyOps rest).dsDefault = s.dsDefault
      rw [ih (s.applyOp o), csc_applyOp_dsDefault]

/-! ## Claim theorems -/

/-- C1 (evidence of the code bug): at a concrete freshly constructed
supervisor in the Enabled lifecycle state, the telemetry tick raises an
AttributeError at the `self.model.fault_code` read — after the refresh but
before any comparison with `"0002H"` — and no fault transition occurs; the
refresh has already reached the hardware.  The documented compare-and-fault
behaviour of the tick is therefore unreachable. -/
theorem C1_tick_fails_at_fault_code_read :
    ((LaserCSC.init "/dev/ttyUSB0" 1 SummaryState.ENABLED 0).telemetry_tick).1
      = some (TickError.attributeError
          "LaserModel object has no attribute fault_code") ∧
    ((LaserCSC.init "/dev/ttyUSB0" 1 SummaryState.ENABLED 0).telemetry_tick).2.summaryState
      = SummaryState.ENABLED ∧
    ((LaserCSC.init "/dev/ttyUSB0" 1 SummaryState.ENABLED 0).telemetry_tick).2.model._laser.calls
      = [HwCall.publishRefresh] :=
  ⟨rfl, rfl, rfl⟩

/-- C2 counterexample: `clearFaultState`, whose documented precondition is
Lifecycle = Fault, is issued while the lifecycle state is STANDBY: it is
not rejected (no error is raised) and one propagation-OFF call reaches the
Device Aggregate, refuting "a rejected command never partially executes /
zero calls reach the Device Aggregate when the precondition is false". -/
theorem C2_counterexample :
    ((LaserCSC.init "COM1" 1 SummaryState.STANDBY 0).do_clearFaultState).1 = none ∧
    ((LaserCSC.init "COM1" 1 SummaryState.STANDBY 0).do_clearFaultState).2.model._laser.calls
      = [HwCall.m_CPU800_setPropagate "OFF"] :=
  ⟨rfl, rfl⟩

/-- C2 amended: changeWavelength, startPropagateLaser and
stopPropagateLaser check the lifecycle-Enabled part of their precondition
strictly before delegation and reject with an ExpectedError naming the
command and the current state, leaving the supervisor (and hence the
hardware trace) untouched; stopPropagateLaser additionally rejects, before
delegation, when the detailed-state read is not Propagating; clearFaultState
performs no precondition check at all and delegates in every state. -/
theorem C2_amended_preconditions (s : LaserCSC) (w : ℚ) :
    (s.summaryState ≠ SummaryState.ENABLED →
      s.do_changeWavelength w
        = (some (CmdError.expectedError
            (notAllowedMsg "changeWavelength" s.summaryState.name)), s) ∧
      s.do_startPropagateLaser
        = (some (CmdError.expectedError
            (notAllowedMsg "startPropagateLaser" s.summaryState.name)), s) ∧
      s.do_stopPropagateLaser
        = (some (CmdError.expectedError
            (notAllowedMsg "stopPropagateLaser" s.summaryState.name)), s)) ∧
    (s.summaryState = SummaryState.ENABLED →
      s.detailed_state ≠ LaserDetailedStateEnum.PROPAGATINGSTATE.value →
      s.do_stopPropagateLaser
        = (some (CmdError.expectedError
            (notAllowedMsg "stopPropagateLaser" (toString s.detailed_state))), s)) ∧
    s.do_clearFaultState = (none, { s with model := s.model.stop }) := by
  refine ⟨?_, ?_, rfl⟩
  · intro h
    have h1 := assert_enabled_of_not_enabled s "changeWavelength" h
    have h2 := assert_enabled_of_not_enabled s "startPropagateLaser" h
    have h3 := assert_enabled_of_not_enabled s "stopPropagateLaser" h
    refine ⟨?_, ?_, ?_⟩
    · unfold LaserCSC.do_changeWavelength
      rw [h1]
    · unfold LaserCSC.do_startPropagateLaser
      rw [h2]
    · unfold LaserCSC.do_stopPropagateLaser
      rw [h3]
  · intro he hd
    have h1 := assert_enabled_of_enabled s "stopPropagateLaser" he
    have h2 := assert_propagating_raises s "stopPropagateLaser"
    unfold LaserCSC.do_stopPropagateLaser
    rw [h1, h2]

/-- C2 amended, witness: the rejection branch at a concrete STANDBY
supervisor, the not-propagating rejection branch at a concrete ENABLED
supervisor, and the unchecked clearFaultState delegation. -/
theorem C2_amended_preconditions_witness :
    (LaserCSC.init "COM4" 1 SummaryState.STANDBY 0).do_changeWavelength 1064
      = (some (CmdError.expectedError
          (notAllowedMsg "changeWavelength"
            (LaserCSC.init "COM4" 1 SummaryState.STANDBY 0).summaryState.name)),
         LaserCSC.init "COM4" 1 SummaryState.STANDBY 0) ∧
    (LaserCSC.init "COM4" 1 SummaryState.ENABLED 0).do_stopPropagateLaser
      = (some (CmdError.expectedError
          (notAllowedMsg "stopPropagateLaser"
            (toString (LaserCSC.init "COM4" 1 SummaryState.ENABLED 0).detailed_state))),
         LaserCSC.init "COM4" 1 SummaryState.ENABLED 0) ∧
    (LaserCSC.init "COM4" 1 SummaryState.STANDBY 0).do_clearFaultState
      = (none, { LaserCSC.init "COM4" 1 SummaryState.STANDBY 0 with
          model := (LaserCSC.init "COM4" 1 SummaryState.STANDBY 0).model.stop }) :=
  ⟨((C2_amended_preconditions (LaserCSC.init "COM4" 1 SummaryState.STANDBY 0) 1064).1
      (by decide)).1,
   (C2_amended_preconditions (LaserCSC.init "COM4" 1 SummaryState.ENABLED 0) 1064).2.1
      rfl (by decide),
   (C2_amended_preconditions (LaserCSC.init "COM4" 1 SummaryState.STANDBY 0) 1064).2.2⟩

/-- C3 counterexample: immediately after a successful startPropagateLaser —
so the published sub-state is Propagating, and the fresh-topic read even
returns the PROPAGATINGSTATE value 6 — stopPropagateLaser is still
rejected: the integer read never equals the plain Enum member, so an
ExpectedError is raised, no propagation-OFF command is sent (the hardware
trace still holds only the ON command) and no event is published. -/
theorem C3_counterexample :
    ((LaserCSC.init "COM5" 1 SummaryState.ENABLED 6).do_startPropagateLaser.2).evtDetailedState
      = [LaserDetailedStateEnum.PROPAGATINGSTATE.value] ∧
    ((LaserCSC.init "COM5" 1 SummaryState.ENABLED 6).do_startPropagateLaser.2).detailed_state
      = LaserDetailedStateEnum.PROPAGATINGSTATE.value ∧
    ((LaserCSC.init "COM5" 1 SummaryState.ENABLED 6).do_startPropagateLaser.2).do_stopPropagateLaser.1
      = some (CmdError.expectedError
          (notAllowedMsg "stopPropagateLaser" (toString (6 : Nat)))) ∧
    ((LaserCSC.init "COM5" 1 SummaryState.ENABLED 6).do_startPropagateLaser.2).do_stopPropagateLaser.2.model._laser.calls
      = [HwCall.m_CPU800_setPropagate "ON"] ∧
    ((LaserCSC.init "COM5" 1 SummaryState.ENABLED 6).do_startPropagateLaser.2).do_stopPropagateLaser.2
      = (LaserCSC.init "COM5" 1 SummaryState.ENABLED 6).do_startPropagateLaser.2 :=
  ⟨rfl, rfl, rfl, rfl, rfl⟩

/-- C3 amended: issuing stopPropagateLaser while the sub-state is Idle is
rejected with an ExpectedError and the hardware stop command is not sent —
indeed stopPropagateLaser is always rejected and leaves the supervisor
state, the hardware trace and the published events untouched: outside
Enabled the enabled-assertion raises, and in Enabled the propagating
assertion raises on every call because the freshly-read integer detailed
state never equals the plain Enum member PROPAGATINGSTATE, so the
propagation-OFF branch is unreachable. -/
theorem C3_amended_stopPropagateLaser_always_rejected (s : LaserCSC) :
    (∃ msg, s.do_stopPropagateLaser.1 = some (CmdError.expectedError msg)) ∧
    s.do_stopPropagateLaser.2 = s :=
  ⟨do_stopPropagateLaser_rejects s, do_stopPropagateLaser_state_unchanged s⟩

/-- C4: issuing startPropagateLaser while the lifecycle is Enabled succeeds,
appends exactly one propagation-ON command to the power-stage trace, and
publishes the PROPAGATINGSTATE detailed-state event (the externally visible
sub-state becomes Propagating); the lifecycle state is unchanged. -/
theorem C4_startPropagateLaser (s : LaserCSC)
    (h : s.summaryState = SummaryState.ENABLED) :
    s.do_startPropagateLaser.1 = none ∧
    s.do_startPropagateLaser.2.model._laser.calls
      = HwCall.m_CPU800_setPropagate "ON" :: s.model._laser.calls ∧
    s.do_startPropagateLaser.2.evtDetailedState
      = LaserDetailedStateEnum.PROPAGATINGSTATE.value :: s.evtDetailedState ∧
    s.do_startPropagateLaser.2.summaryState = s.summaryState := by
  have h1 := assert_enabled_of_enabled s "startPropagateLaser" h
  have hc : s.do_startPropagateLaser
      = (none, ({ s with model := s.model.run }).set_detailed_state
          LaserDetailedStateEnum.PROPAGATINGSTATE) := by
    unfold LaserCSC.do_startPropagateLaser
    rw [h1]
  rw [hc]
  exact ⟨rfl, rfl, rfl, rfl⟩

/-- C4 witness at a concrete Enabled supervisor. -/
theorem C4_startPropagateLaser_witness :
    (LaserCSC.init "COM6" 1 SummaryState.ENABLED 0).do_startPropagateLaser.1 = none ∧
    (LaserCSC.init "COM6" 1 SummaryState.ENABLED 0).do_startPropagateLaser.2.model._laser.calls
      = HwCall.m_CPU800_setPropagate "ON"
          :: (LaserCSC.init "COM6" 1 SummaryState.ENABLED 0).model._laser.calls ∧
    (LaserCSC.init "COM6" 1 SummaryState.ENABLED 0).do_startPropagateLaser.2.evtDetailedState
      = LaserDetailedStateEnum.PROPAGATINGSTATE.value
          :: (LaserCSC.init "COM6" 1 SummaryState.ENABLED 0).evtDetailedState ∧
    (LaserCSC.init "COM6" 1 SummaryState.ENABLED 0).do_startPropagateLaser.2.summaryState
      = (LaserCSC.init "COM6" 1 SummaryState.ENABLED 0).summaryState :=
  C4_startPropagateLaser (LaserCSC.init "COM6" 1 SummaryState.ENABLED 0) rfl

/-- C5: issuing changeWavelength with 1064.0 while the lifecycle is Enabled
succeeds, the oscillator driver receives exactly one set-wavelength command
carrying 1064.0, and neither the published events, nor the detailed-state
read, nor the lifecycle state change. -/
theorem C5_changeWavelength_1064 (s : LaserCSC)
    (h : s.summaryState = SummaryState.ENABLED) :
    (s.do_changeWavelength 1064).1 = none ∧
    (s.do_changeWavelength 1064).2.model._laser.calls
      = HwCall.maxiOPG_setWavelength 1064 :: s.model._laser.calls ∧
    (s.do_changeWavelength 1064).2.evtDetailedState = s.evtDetailedState ∧
    (s.do_changeWavelength 1064).2.detailed_state = s.detailed_state ∧
    (s.do_changeWavelength 1064).2.summaryState = s.summaryState := by
  have h1 := assert_enabled_of_enabled s "changeWavelength" h
  have hc : s.do_changeWavelength 1064
      = (none, { s with model := s.model.change_wavelength 1064 }) := by
    unfold LaserCSC.do_changeWavelength
    rw [h1]
  rw [hc]
  exact ⟨rfl, rfl, rfl, rfl, rfl⟩

/-- C5 witness at a concrete Enabled supervisor. -/
theorem C5_changeWavelength_1064_witness :
    ((LaserCSC.init "COM7" 1 SummaryState.ENABLED 0).do_changeWavelength 1064).1 = none ∧
    ((LaserCSC.init "COM7" 1 SummaryState.ENABLED 0).do_changeWavelength 1064).2.model._laser.calls
      = HwCall.maxiOPG_setWavelength 1064
          :: (LaserCSC.init "COM7" 1 SummaryState.ENABLED 0).model._laser.calls ∧
    ((LaserCSC.init "COM7" 1 SummaryState.ENABLED 0).do_changeWavelength 1064).2.evtDetailedState
      = (LaserCSC.init "COM7" 1 SummaryState.ENABLED 0).evtDetailedState ∧
    ((LaserCSC.init "COM7" 1 SummaryState.ENABLED 0).do_changeWavelength 1064).2.detailed_state
      = (LaserCSC.init "COM7" 1 SummaryState.ENABLED 0).detailed_state ∧
    ((LaserCSC.init "COM7" 1 SummaryState.ENABLED 0).do_changeWavelength 1064).2.summaryState
      = (LaserCSC.init "COM7" 1 SummaryState.ENABLED 0).summaryState :=
  C5_changeWavelength_1064 (LaserCSC.init "COM7" 1 SummaryState.ENABLED 0) rfl

/-- C6 counterexample: `clearFaultState` issued while the lifecycle state is
DISABLED (not Fault) is not rejected: it succeeds and one propagation-OFF
command reaches the power stage, refuting "it is rejected in any other
lifecycle state". -/
theorem C6_counterexample :
    ((LaserCSC.init "COM2" 1 SummaryState.DISABLED 0).do_clearFaultState).1 = none ∧
    ((LaserCSC.init "COM2" 1 SummaryState.DISABLED 0).do_clearFaultState).2.model._laser.calls
      = [HwCall.m_CPU800_setPropagate "OFF"] ∧
    ((LaserCSC.init "COM2" 1 SummaryState.DISABLED 0).do_clearFaultState).2.summaryState
      = SummaryState.DISABLED :=
  ⟨rfl, rfl, rfl⟩

/-- C6 amended: `clearFaultState` has no precondition check — it is
accepted in every lifecycle state — and its effect is to issue exactly one
stop-propagation (power OFF) command; it changes neither the lifecycle
state (in particular it does not by itself leave Fault) nor the published
events. -/
theorem C6_amended_clearFaultState (s : LaserCSC) :
    s.do_clearFaultState.1 = none ∧
    s.do_clearFaultState.2.model._laser.calls
      = HwCall.m_CPU800_setPropagate "OFF" :: s.model._laser.calls ∧
    s.do_clearFaultState.2.summaryState = s.summaryState ∧
    s.do_clearFaultState.2.evtDetailedState = s.evtDetailedState :=
  ⟨rfl, rfl, rfl, rfl⟩

/-- C7: in every supervisor state, `abort` and `setValue` return success and
leave the supervisor — model, hardware trace, lifecycle state, event-topic
default and published events — exactly unchanged. -/
theorem C7_abort_setValue_noop (s : LaserCSC) :
    s.do_abort = (none, s) ∧ s.do_setValue = (none, s) :=
  ⟨rfl, rfl⟩

/-- C8 counterexample: the fault transition the telemetry loop invokes
changes the lifecycle of a concrete Enabled supervisor to FAULT while
publishing zero detailedState events, so not every lifecycle/sub-state
transition is accompanied by exactly one published detailedState event. -/
theorem C8_counterexample :
    ((LaserCSC.init "COM3" 1 SummaryState.ENABLED 0).fault).summaryState
      = SummaryState.FAULT ∧
    (LaserCSC.init "COM3" 1 SummaryState.ENABLED 0).summaryState
      ≠ SummaryState.FAULT ∧
    ((LaserCSC.init "COM3" 1 SummaryState.ENABLED 0).fault).evtDetailedState
      = (LaserCSC.init "COM3" 1 SummaryState.ENABLED 0).evtDetailedState :=
  ⟨rfl, by decide, rfl⟩

/-- C8 amended: every assignment through the detailed_state setter publishes
exactly one detailedState event carrying the new value and changes nothing
else, so the startPropagateLaser handler publishes exactly one event
carrying the new sub-state; the stopPropagateLaser handler always rejects
and publishes none (its setter assignment is unreachable); and the fault
transition invoked by the telemetry loop publishes no detailedState
event. -/
theorem C8_amended_detailedState_events (s : LaserCSC) (v : LaserDetailedStateEnum) :
    (s.set_detailed_state v).evtDetailedState = v.value :: s.evtDetailedState ∧
    (s.set_detailed_state v).summaryState = s.summaryState ∧
    (s.set_detailed_state v).model = s.model ∧
    (s.summaryState = SummaryState.ENABLED →
      s.do_startPropagateLaser.2.evtDetailedState
        = LaserDetailedStateEnum.PROPAGATINGSTATE.value :: s.evtDetailedState) ∧
    s.do_stopPropagateLaser.2.evtDetailedState = s.evtDetailedState ∧
    s.fault.evtDetailedState = s.evtDetailedState := by
  refine ⟨rfl, rfl, rfl, ?_, ?_, rfl⟩
  · intro he
    have h1 := assert_enabled_of_enabled s "startPropagateLaser" he
    have hc : s.do_startPropagateLaser
        = (none, ({ s with model := s.model.run }).set_detailed_state
            LaserDetailedStateEnum.PROPAGATINGSTATE) := by
      unfold LaserCSC.do_startPropagateLaser
      rw [h1]
    rw [hc]
    rfl
  · rw [do_stopPropagateLaser_state_unchanged s]

/-- C8 amended, witness at a concrete Enabled supervisor: the setter
publishes one event, startPropagateLaser publishes one event,
stopPropagateLaser and the fault transition publish none. -/
theorem C8_amended_detailedState_events_witness :
    ((LaserCSC.init "COM8" 1 SummaryState.ENABLED 0).set_detailed_state
        LaserDetailedStateEnum.FAULTSTATE).evtDetailedState
      = LaserDetailedStateEnum.FAULTSTATE.value
          :: (LaserCSC.init "COM8" 1 SummaryState.ENABLED 0).evtDetailedState ∧
    ((LaserCSC.init "COM8" 1 SummaryState.ENABLED 0).set_detailed_state
        LaserDetailedStateEnum.FAULTSTATE).summaryState
      = (LaserCSC.init "COM8" 1 SummaryState.ENABLED 0).summaryState ∧
    ((LaserCSC.init "COM8" 1 SummaryState.ENABLED 0).set_detailed_state
        LaserDetailedStateEnum.FAULTSTATE).model
      = (LaserCSC.init "COM8" 1 SummaryState.ENABLED 0).model ∧
    (LaserCSC.init "COM8" 1 SummaryState.ENABLED 0).do_startPropagateLaser.2.evtDetailedState
      = LaserDetailedStateEnum.PROPAGATINGSTATE.value
          :: (LaserCSC.init "COM8" 1 SummaryState.ENABLED 0).evtDetailedState ∧
    (LaserCSC.init "COM8" 1 SummaryState.ENABLED 0).do_stopPropagateLaser.2.evtDetailedState
      = (LaserCSC.init "COM8" 1 SummaryState.ENABLED 0).evtDetailedState ∧
    (LaserCSC.init "COM8" 1 SummaryState.ENABLED 0).fault.evtDetailedState
      = (LaserCSC.init "COM8" 1 SummaryState.ENABLED 0).evtDetailedState := by
  have h := C8_amended_detailedState_events
    (LaserCSC.init "COM8" 1 SummaryState.ENABLED 0) LaserDetailedStateEnum.FAULTSTATE
  exact ⟨h.1, h.2.1, h.2.2.1, h.2.2.2.1 rfl, h.2.2.2.2.1, h.2.2.2.2.2⟩

/-- C9: the detailed_state read always returns the detailedState field of a
freshly constructed event topic (the construction-time default), and is
invariant under every sequence of supervisor operations — commands,
telemetry ticks and in particular detailed_state setter assignments — so
the value assert_propagating inspects is unchanged by any preceding
do_startPropagateLaser or do_stopPropagateLaser call. -/
theorem C9_detailed_state_read_constant (s : LaserCSC) (ops : List CscOp) (a : String) :
    s.detailed_state = s.dsDefault ∧
    (s.applyOps ops).detailed_state = s.detailed_state ∧
    (s.applyOps ops).assert_propagating a = s.assert_propagating a := by
  have hd : (s.applyOps ops).detailed_state = s.detailed_state :=
    csc_applyOps_dsDefault s ops
  refine ⟨rfl, hd, ?_⟩
  unfold LaserCSC.assert_propagating
  rw [hd]

/-- C10: no `LaserModel` operation ever assigns a `fault_code` attribute:
on every model state reachable from `LaserModel.__init__` the attribute
lookup fails, so every telemetry tick of a supervisor holding such a model
raises the AttributeError at the `self.model.fault_code` read and performs
no fault transition. -/
theorem C10_no_fault_code_attribute (port : String) (ops : List ModelOp)
    (s : LaserCSC) (h : s.model = (LaserModel.init port).applyOps ops) :
    s.model.getattrExtra "fault_code" = none ∧
    s.telemetry_tick.1
      = some (TickError.attributeError
          "LaserModel object has no attribute fault_code") ∧
    s.telemetry_tick.2.summaryState = s.summaryState := by
  have hx : s.model.extraAttrs = [] := by
    rw [h, model_applyOps_extraAttrs]
    rfl
  have hp : s.model.publish.extraAttrs = [] := hx
  refine ⟨getattrExtra_of_no_extra _ _ hx, ?_, ?_⟩
  · unfold LaserCSC.telemetry_tick
    dsimp only
    rw [getattrExtra_of_no_extra _ _ hp]
  · unfold LaserCSC.telemetry_tick
    dsimp only
    rw [getattrExtra_of_no_extra _ _ hp]

/-- C10 witness: a supervisor whose model went through a run and a publish
operation after construction; its tick still fails at the fault-code
read. -/
theorem C10_no_fault_code_attribute_witness :
    ({ LaserCSC.init "COM9" 1 SummaryState.ENABLED 0 with
        model := (LaserModel.init "COM9").applyOps
          [ModelOp.run, ModelOp.publish] }).model.getattrExtra "fault_code" = none ∧
    ({ LaserCSC.init "COM9" 1 SummaryState.ENABLED 0 with
        model := (LaserModel.init "COM9").applyOps
          [ModelOp.run, ModelOp.publish] }).telemetry_tick.1
      = some (TickError.attributeError
          "LaserModel object has no attribute fault_code") ∧
    ({ LaserCSC.init "COM9" 1 SummaryState.ENABLED 0 with
        model := (LaserModel.init "COM9").applyOps
          [ModelOp.run, ModelOp.publish] }).telemetry_tick.2.summaryState
      = ({ LaserCSC.init "COM9" 1 SummaryState.ENABLED 0 with
          model := (LaserModel.init "COM9").applyOps
            [ModelOp.run, ModelOp.publish] }).summaryState :=
  C10_no_fault_code_attribute "COM9" [ModelOp.run, ModelOp.publish] _ rfl

end Laser
